import Mathlib

/-!
Verification development for the snek8 CHIP-8 core (src/unnamed/part_003,
the implementation file `cpu.c`, together with the constants and the
`snek8_cpuGetPixel` helper declared in the accompanying header
`src/snek8/core/src/cpu.c`).

The CPU aggregate is embedded shallowly: every C array becomes a function
from `Nat` indices to `Nat` byte values, every 8-bit/16-bit arithmetic step
carries an explicit `% 256` / `% 65536` exactly where the C integer types
wrap, and every raw array access that the C code performs without a bounds
check is routed through a guarded accessor returning `Option` — a `none`
result models the C program reading or writing outside one of its
fixed-size arrays (undefined behaviour in the source language).
-/

/-- Execution outcome codes, from `enum Snek8ExecutionOutput` in the header. -/
inductive Snek8ExecutionOutput where
  | SUCCESS
  | INVALID_OPCODE
  | STACK_EMPTY
  | STACK_OVERFLOW
  | MEM_ADDR_OUT_OF_BOUNDS
  | ROM_FILE_INVALID
  | ROM_FILE_NOT_FOUND
  | ROM_FILE_FAILED_TO_OPEN
  | ROM_FILE_FAILED_TO_READ
  | ROM_FILE_EXCEEDS_MAX_MEM
  | EMPTY_STRUCT
  | INDEX_OUT_RANGE
  deriving DecidableEq, Repr

/-- The CPU aggregate, from `typedef struct { ... } Snek8CPU` in the header.
`memory` has 4096 byte cells, `graphics` 2048, `stackBuffer` 16 sixteen-bit
cells (the `buffer` of the embedded `Snek8Stack`, whose pointer is
`stackSp`); `registers` has 16 byte cells.  The C arrays are modelled as
total functions; only indices below the array length are ever meaningful,
and the guarded accessors below enforce the memory bound. -/
structure Snek8CPU where
  memory : Nat → Nat
  graphics : Nat → Nat
  stackBuffer : Nat → Nat
  stackSp : Nat
  registers : Nat → Nat
  keys : Nat
  pc : Nat
  ir : Nat
  implmFlags : Nat
  sp : Nat
  st : Nat
  dt : Nat

/-- Pointwise update of a function-modelled array cell. -/
def updFn (f : Nat → Nat) (i v : Nat) : Nat → Nat :=
  fun j => if j = i then v else f j

/-- Guarded read of the 4096-byte `memory` array: `none` models an
out-of-bounds access in the C source. -/
def snek8_memRead (m : Nat → Nat) (i : Nat) : Option Nat :=
  if i < 4096 then some (m i) else none

/-- Guarded write to the 4096-byte `memory` array: `none` models an
out-of-bounds access in the C source. -/
def snek8_memWrite (m : Nat → Nat) (i v : Nat) : Option (Nat → Nat) :=
  if i < 4096 then some (updFn m i v) else none

/-- `snek8_opcodeGetNibble` from the header: `(opcode >> (4*indx)) & 0xF`. -/
def snek8_opcodeGetNibble (opcode indx : Nat) : Nat :=
  (opcode >>> (4 * indx)) &&& 0xF

/-- `snek8_opcodeGetAddr` from the header: `opcode & 0x0FFF`. -/
def snek8_opcodeGetAddr (opcode : Nat) : Nat :=
  opcode &&& 0xFFF

/-- `snek8_opcodeGetByte` from the header: `opcode & 0x00FF`. -/
def snek8_opcodeGetByte (opcode : Nat) : Nat :=
  opcode &&& 0xFF

/-- `_snek8_cpuIncrementPC`: `cpu->pc += 2` on a `uint16_t`. -/
def snek8_cpuIncrementPC (cpu : Snek8CPU) : Snek8CPU :=
  { cpu with pc := (cpu.pc + 2) % 65536 }

/-- `_snek8_cpuDecrementPC`: `cpu->pc -= 2` on a `uint16_t`. -/
def snek8_cpuDecrementPC (cpu : Snek8CPU) : Snek8CPU :=
  { cpu with pc := (cpu.pc + 65534) % 65536 }

/-- `_snek8_cpuTickTimers`: decrement `dt` and `st` when nonzero. -/
def snek8_cpuTickTimers (cpu : Snek8CPU) : Snek8CPU :=
  { cpu with
    dt := if cpu.dt ≠ 0 then cpu.dt - 1 else cpu.dt
    st := if cpu.st ≠ 0 then cpu.st - 1 else cpu.st }

/-- `_snek8_cpuGetOpcode`: big-endian fetch of two bytes at `pc`, with no
bounds check in the source; the guarded reads surface an out-of-bounds
fetch as `none`. -/
def snek8_cpuGetOpcode (cpu : Snek8CPU) : Option Nat := do
  let hi ← snek8_memRead cpu.memory cpu.pc
  let lo ← snek8_memRead cpu.memory (cpu.pc + 1)
  pure ((hi <<< 8) ||| lo)

/-- `snek8_cpuGetKeyVal` from the header: `(cpu.keys & (1u << key)) ? 1 : 0`. -/
def snek8_cpuGetKeyVal (cpu : Snek8CPU) (key : Nat) : Bool :=
  cpu.keys &&& (1 <<< key) != 0

/-- The 80-byte fontset written by `snek8_cpuInit`. -/
def snek8_fontset : List Nat :=
  [0xF0, 0x90, 0x90, 0x90, 0xF0,
   0x20, 0x60, 0x20, 0x20, 0x70,
   0xF0, 0x10, 0xF0, 0x80, 0xF0,
   0xF0, 0x10, 0xF0, 0x10, 0xF0,
   0x90, 0x90, 0xF0, 0x10, 0x10,
   0xF0, 0x80, 0xF0, 0x10, 0xF0,
   0xF0, 0x80, 0xF0, 0x90, 0xF0,
   0xF0, 0x10, 0x20, 0x40, 0x40,
   0xF0, 0x90, 0xF0, 0x90, 0xF0,
   0xF0, 0x90, 0xF0, 0x10, 0xF0,
   0xF0, 0x90, 0xF0, 0x90, 0x90,
   0xE0, 0x90, 0xE0, 0x90, 0xE0,
   0xF0, 0x80, 0x80, 0x80, 0xF0,
   0xE0, 0x90, 0x90, 0x90, 0xE0,
   0xF0, 0x80, 0xF0, 0x80, 0xF0,
   0xF0, 0x80, 0xF0, 0x80, 0x80]

/-- `snek8_cpuInit` (part_003 lines 54-91).  It stores the quirk flags,
zeroes `keys`, sets `pc` to `0x200`, zeroes `ir`, `sp` (twice — the
source assigns `cpu->sp = 0` in two places and never assigns `cpu->st`),
zeroes `dt`, zeroes the stack, the registers, the memory and the
graphics, and copies the fontset to `0x050`.  The field `st` is left at
its prior value, exactly as in the source. -/
def snek8_cpuInit (cpu : Snek8CPU) (implm_flags : Nat) : Snek8CPU :=
  { cpu with
    implmFlags := implm_flags
    keys := 0
    pc := 0x200
    ir := 0
    sp := 0
    dt := 0
    stackSp := 0
    stackBuffer := fun _ => 0
    registers := fun _ => 0
    graphics := fun _ => 0
    memory := fun i =>
      if 0x50 ≤ i ∧ i < 0x50 + 80 then snek8_fontset.getD (i - 0x50) 0 else 0 }

/-- `snek8_cpuLoadRom` with the file I/O abstracted to the byte list the
file would deliver: a ROM larger than 3584 bytes is rejected, otherwise
its bytes are copied to `memory` starting at `0x200`. -/
def snek8_cpuLoadRom (cpu : Snek8CPU) (rom : List Nat) :
    Snek8ExecutionOutput × Snek8CPU :=
  if rom.length > 3584 then (.ROM_FILE_EXCEEDS_MAX_MEM, cpu)
  else
    (.SUCCESS,
     { cpu with
       memory := fun i =>
         if 0x200 ≤ i ∧ i < 0x200 + rom.length then rom.getD (i - 0x200) 0
         else cpu.memory i })

/-- `snek8_cpuSetKey`: set or clear one bit of the 16-bit key latch. -/
def snek8_cpuSetKey (cpu : Snek8CPU) (key : Nat) (value : Bool) :
    Snek8ExecutionOutput × Snek8CPU :=
  (.SUCCESS,
   { cpu with
     keys :=
       if value then cpu.keys ||| (1 <<< key)
       else cpu.keys &&& (0xFFFF ^^^ ((1 <<< key) &&& 0xFFFF)) })

/-- `snek8_stackPush`: fails with STACK_OVERFLOW at sp = 16, otherwise
stores `pc` at `buffer[sp]`, increments `sp`, and jumps to the opcode
address. -/
def snek8_stackPush (cpu : Snek8CPU) (opcode : Nat) :
    Snek8ExecutionOutput × Snek8CPU :=
  if cpu.stackSp = 16 then (.STACK_OVERFLOW, cpu)
  else
    (.SUCCESS,
     { cpu with
       stackBuffer := updFn cpu.stackBuffer cpu.stackSp cpu.pc
       stackSp := cpu.stackSp + 1
       pc := snek8_opcodeGetAddr opcode })

/-- `snek8_stackPop`: fails with STACK_EMPTY at sp = 0, otherwise
decrements `sp` and restores `pc` from `buffer[sp]`. -/
def snek8_stackPop (cpu : Snek8CPU) : Snek8ExecutionOutput × Snek8CPU :=
  if cpu.stackSp = 0 then (.STACK_EMPTY, cpu)
  else
    (.SUCCESS,
     { cpu with
       stackSp := cpu.stackSp - 1
       pc := cpu.stackBuffer (cpu.stackSp - 1) })

/-- NOP executor `snek8_cpuExecutionError`: always INVALID_OPCODE. -/
def snek8_cpuExecutionError (cpu : Snek8CPU) (_opcode : Nat) :
    Option (Snek8ExecutionOutput × Snek8CPU) :=
  some (.INVALID_OPCODE, cpu)

/-- `snek8_cpuCLS` (00E0): zero the graphics array. -/
def snek8_cpuCLS (cpu : Snek8CPU) (_opcode : Nat) :
    Option (Snek8ExecutionOutput × Snek8CPU) :=
  some (.SUCCESS, { cpu with graphics := fun _ => 0 })

/-- `snek8_cpuRET` (00EE): pop the stack into `pc`. -/
def snek8_cpuRET (cpu : Snek8CPU) (_opcode : Nat) :
    Option (Snek8ExecutionOutput × Snek8CPU) :=
  some (snek8_stackPop cpu)

/-- `snek8_cpuCALL` (2NNN): push `pc`, jump to NNN. -/
def snek8_cpuCALL (cpu : Snek8CPU) (opcode : Nat) :
    Option (Snek8ExecutionOutput × Snek8CPU) :=
  some (snek8_stackPush cpu opcode)

/-- `snek8_cpuJMP_ADDR` (1NNN): `pc := NNN`. -/
def snek8_cpuJMP_ADDR (cpu : Snek8CPU) (opcode : Nat) :
    Option (Snek8ExecutionOutput × Snek8CPU) :=
  some (.SUCCESS, { cpu with pc := snek8_opcodeGetAddr opcode })

/-- `snek8_cpuSE_VX_BYTE` (3XKK): skip when `V[X] == KK`. -/
def snek8_cpuSE_VX_BYTE (cpu : Snek8CPU) (opcode : Nat) :
    Option (Snek8ExecutionOutput × Snek8CPU) :=
  let kk := snek8_opcodeGetByte opcode
  let x := snek8_opcodeGetNibble opcode 2
  some (.SUCCESS, if cpu.registers x = kk then snek8_cpuIncrementPC cpu else cpu)

/-- `snek8_cpuSNE_VX_BYTE` (4XKK): skip when `V[X] != KK`. -/
def snek8_cpuSNE_VX_BYTE (cpu : Snek8CPU) (opcode : Nat) :
    Option (Snek8ExecutionOutput × Snek8CPU) :=
  let kk := snek8_opcodeGetByte opcode
  let x := snek8_opcodeGetNibble opcode 2
  some (.SUCCESS, if cpu.registers x ≠ kk then snek8_cpuIncrementPC cpu else cpu)

/-- `snek8_cpuLD_VX_BYTE` (6XKK): `V[X] := KK`. -/
def snek8_cpuLD_VX_BYTE (cpu : Snek8CPU) (opcode : Nat) :
    Option (Snek8ExecutionOutput × Snek8CPU) :=
  let kk := snek8_opcodeGetByte opcode
  let x := snek8_opcodeGetNibble opcode 2
  some (.SUCCESS, { cpu with registers := updFn cpu.registers x kk })

/-- `snek8_cpuADD_VX_BYTE` (7XKK): `V[X] += KK` with 8-bit wrap; VF
untouched. -/
def snek8_cpuADD_VX_BYTE (cpu : Snek8CPU) (opcode : Nat) :
    Option (Snek8ExecutionOutput × Snek8CPU) :=
  let kk := snek8_opcodeGetByte opcode
  let x := snek8_opcodeGetNibble opcode 2
  some (.SUCCESS,
    { cpu with registers := updFn cpu.registers x ((cpu.registers x + kk) % 256) })

/-- `snek8_cpuSE_VX_VY` (5XY0): skip when `V[X] == V[Y]`. -/
def snek8_cpuSE_VX_VY (cpu : Snek8CPU) (opcode : Nat) :
    Option (Snek8ExecutionOutput × Snek8CPU) :=
  let x := snek8_opcodeGetNibble opcode 2
  let y := snek8_opcodeGetNibble opcode 1
  some (.SUCCESS,
    if cpu.registers x = cpu.registers y then snek8_cpuIncrementPC cpu else cpu)

/-- `snek8_cpuSNE_VX_VY` (9XY0): skip when `V[X] != V[Y]`. -/
def snek8_cpuSNE_VX_VY (cpu : Snek8CPU) (opcode : Nat) :
    Option (Snek8ExecutionOutput × Snek8CPU) :=
  let x := snek8_opcodeGetNibble opcode 2
  let y := snek8_opcodeGetNibble opcode 1
  some (.SUCCESS,
    if cpu.registers x ≠ cpu.registers y then snek8_cpuIncrementPC cpu else cpu)

/-- `snek8_cpuLD_VX_VY` (8XY0). -/
def snek8_cpuLD_VX_VY (cpu : Snek8CPU) (opcode : Nat) :
    Option (Snek8ExecutionOutput × Snek8CPU) :=
  let x := snek8_opcodeGetNibble opcode 2
  let y := snek8_opcodeGetNibble opcode 1
  some (.SUCCESS, { cpu with registers := updFn cpu.registers x (cpu.registers y) })

/-- `snek8_cpuOR_VX_VY` (8XY1). -/
def snek8_cpuOR_VX_VY (cpu : Snek8CPU) (opcode : Nat) :
    Option (Snek8ExecutionOutput × Snek8CPU) :=
  let x := snek8_opcodeGetNibble opcode 2
  let y := snek8_opcodeGetNibble opcode 1
  some (.SUCCESS,
    { cpu with registers := updFn cpu.registers x (cpu.registers x ||| cpu.registers y) })

/-- `snek8_cpuAND_VX_VY` (8XY2). -/
def snek8_cpuAND_VX_VY (cpu : Snek8CPU) (opcode : Nat) :
    Option (Snek8ExecutionOutput × Snek8CPU) :=
  let x := snek8_opcodeGetNibble opcode 2
  let y := snek8_opcodeGetNibble opcode 1
  some (.SUCCESS,
    { cpu with registers := updFn cpu.registers x (cpu.registers x &&& cpu.registers y) })

/-- `snek8_cpuXOR_VX_VY` (8XY3). -/
def snek8_cpuXOR_VX_VY (cpu : Snek8CPU) (opcode : Nat) :
    Option (Snek8ExecutionOutput × Snek8CPU) :=
  let x := snek8_opcodeGetNibble opcode 2
  let y := snek8_opcodeGetNibble opcode 1
  some (.SUCCESS,
    { cpu with registers := updFn cpu.registers x (cpu.registers x ^^^ cpu.registers y) })

/-- `snek8_cpuADD_VX_VY` (8XY4, part_003 lines 363-371): the carry is
computed first into a local, the 8-bit sum is stored in `V[X]`, and only
then is the carry written to `V[0xF]`. -/
def snek8_cpuADD_VX_VY (cpu : Snek8CPU) (opcode : Nat) :
    Option (Snek8ExecutionOutput × Snek8CPU) :=
  let x := snek8_opcodeGetNibble opcode 2
  let y := snek8_opcodeGetNibble opcode 1
  let carry := if 255 - cpu.registers x < cpu.registers y then 1 else 0
  let regs1 := updFn cpu.registers x ((cpu.registers x + cpu.registers y) % 256)
  some (.SUCCESS, { cpu with registers := updFn regs1 0xF carry })

/-- `snek8_cpuSUB_VX_VY` (8XY5): not-borrow into a local, 8-bit
difference into `V[X]`, then the flag into `V[0xF]`. -/
def snek8_cpuSUB_VX_VY (cpu : Snek8CPU) (opcode : Nat) :
    Option (Snek8ExecutionOutput × Snek8CPU) :=
  let x := snek8_opcodeGetNibble opcode 2
  let y := snek8_opcodeGetNibble opcode 1
  let notBorrow := if cpu.registers y ≤ cpu.registers x then 1 else 0
  let regs1 := updFn cpu.registers x ((cpu.registers x + (256 - cpu.registers y)) % 256)
  some (.SUCCESS, { cpu with registers := updFn regs1 0xF notBorrow })

/-- `snek8_cpuSUBN_VX_VY` (8XY7). -/
def snek8_cpuSUBN_VX_VY (cpu : Snek8CPU) (opcode : Nat) :
    Option (Snek8ExecutionOutput × Snek8CPU) :=
  let x := snek8_opcodeGetNibble opcode 2
  let y := snek8_opcodeGetNibble opcode 1
  let notBorrow := if cpu.registers x ≤ cpu.registers y then 1 else 0
  let regs1 := updFn cpu.registers x ((cpu.registers y + (256 - cpu.registers x)) % 256)
  some (.SUCCESS, { cpu with registers := updFn regs1 0xF notBorrow })

/-- `snek8_cpuSHR_VX_VY` (8XY6): low bit into a local, optional
`V[X] := V[Y]` under the shift quirk, shift, then flag. -/
def snek8_cpuSHR_VX_VY (cpu : Snek8CPU) (opcode : Nat) :
    Option (Snek8ExecutionOutput × Snek8CPU) :=
  let x := snek8_opcodeGetNibble opcode 2
  let y := snek8_opcodeGetNibble opcode 1
  let low := cpu.registers x &&& 0x1
  let regs0 :=
    if cpu.implmFlags &&& 1 ≠ 0 then updFn cpu.registers x (cpu.registers y)
    else cpu.registers
  let regs1 := updFn regs0 x (regs0 x / 2)
  some (.SUCCESS, { cpu with registers := updFn regs1 0xF low })

/-- `snek8_cpuSHL_VX_VY` (8XYE). -/
def snek8_cpuSHL_VX_VY (cpu : Snek8CPU) (opcode : Nat) :
    Option (Snek8ExecutionOutput × Snek8CPU) :=
  let x := snek8_opcodeGetNibble opcode 2
  let y := snek8_opcodeGetNibble opcode 1
  let high := (cpu.registers x &&& 0x80) >>> 7
  let regs0 :=
    if cpu.implmFlags &&& 1 ≠ 0 then updFn cpu.registers x (cpu.registers y)
    else cpu.registers
  let regs1 := updFn regs0 x ((regs0 x * 2) % 256)
  some (.SUCCESS, { cpu with registers := updFn regs1 0xF high })

/-- `snek8_cpuLD_I_ADDR` (ANNN): `ir := NNN`. -/
def snek8_cpuLD_I_ADDR (cpu : Snek8CPU) (opcode : Nat) :
    Option (Snek8ExecutionOutput × Snek8CPU) :=
  some (.SUCCESS, { cpu with ir := snek8_opcodeGetAddr opcode })

/-- `snek8_cpuJP_V0_ADDR` (BNNN, part_003 lines 468-477).  The source
declares `uint8_t x = 0` and, under the BNNN quirk, reassigns it with
`x = snek8_opcodeGetNibble(opcode, x)` — passing the old value of `x`
(zero) as the nibble index, so the quirk path reads nibble 0, the lowest
nibble.  The shadowed lets reproduce this verbatim. -/
def snek8_cpuJP_V0_ADDR (cpu : Snek8CPU) (opcode : Nat) :
    Option (Snek8ExecutionOutput × Snek8CPU) :=
  let addr := snek8_opcodeGetAddr opcode
  let x := 0
  let x := if cpu.implmFlags &&& 2 ≠ 0 then snek8_opcodeGetNibble opcode x else x
  some (.SUCCESS, { cpu with pc := (addr + cpu.registers x) % 65536 })

/-- `snek8_cpuRND_VX_BYTE` (CXKK): the `rand()` call is abstracted into
the extra `rnd` argument; the source masks it with KK. -/
def snek8_cpuRND_VX_BYTE (cpu : Snek8CPU) (opcode rnd : Nat) :
    Option (Snek8ExecutionOutput × Snek8CPU) :=
  let kk := snek8_opcodeGetByte opcode
  let x := snek8_opcodeGetNibble opcode 2
  some (.SUCCESS, { cpu with registers := updFn cpu.registers x (rnd &&& kk) })

/-- `snek8_cpuGetPixel` from the header: both coordinates are masked
(`x & 63`, `y & 31`) and the row-major index is returned.  The source
returns a pointer into `graphics`; the model returns the index. -/
def snek8_cpuGetPixel (x y : Nat) : Nat :=
  (y % 32) * 64 + (x % 64)

/-- Inner loop of `snek8_cpuDRW_VX_VY_N`: for each bit position `row` of
the sprite byte, XOR the masked bit value into the target pixel and
record a collision in the threaded VF when an on bit lands on a pixel
that becomes zero.  `fuel` counts the remaining iterations (8 at entry). -/
def snek8_drwBits (byte px py col : Nat) :
    Nat → Nat → (Nat → Nat) → Nat → ((Nat → Nat) × Nat)
  | _row, 0, g, vf => (g, vf)
  | row, Nat.succ fuel, g, vf =>
      let bit := byte &&& (0x80 >>> row)
      let idx := snek8_cpuGetPixel (px + row) (py + col)
      let pix := g idx ^^^ bit
      let vf1 := if bit ≠ 0 ∧ pix = 0 then 1 else vf
      snek8_drwBits byte px py col (row + 1) fuel (updFn g idx pix) vf1

/-- Outer loop of `snek8_cpuDRW_VX_VY_N`: read sprite byte `col` from
`memory[ir + col]` and blit its bits.  `fuel` counts the remaining
iterations (N at entry). -/
def snek8_drwCols (mem : Nat → Nat) (ir px py : Nat) :
    Nat → Nat → (Nat → Nat) → Nat → Option ((Nat → Nat) × Nat)
  | _col, 0, g, vf => some (g, vf)
  | col, Nat.succ fuel, g, vf =>
      match snek8_memRead mem (ir + col) with
      | none => none
      | some byte =>
          let p := snek8_drwBits byte px py col 0 8 g vf
          snek8_drwCols mem ir px py (col + 1) fuel p.1 p.2

/-- `snek8_cpuDRW_VX_VY_N` (DXYN, part_003 lines 495-518): VF is zeroed
first, then the `ir + n > 0xFFF` bound is checked (returning
MEM_ADDR_OUT_OF_BOUNDS with VF already cleared), then the sprite is
XOR-blitted with per-pixel coordinate masking via `snek8_cpuGetPixel`. -/
def snek8_cpuDRW_VX_VY_N (cpu : Snek8CPU) (opcode : Nat) :
    Option (Snek8ExecutionOutput × Snek8CPU) :=
  let cpu0 := { cpu with registers := updFn cpu.registers 0xF 0 }
  let x := snek8_opcodeGetNibble opcode 2
  let y := snek8_opcodeGetNibble opcode 1
  let n := snek8_opcodeGetNibble opcode 0
  if 0xFFF < cpu0.ir + n then some (.MEM_ADDR_OUT_OF_BOUNDS, cpu0)
  else
    let px := cpu0.registers x
    let py := cpu0.registers y
    match snek8_drwCols cpu0.memory cpu0.ir px py 0 n cpu0.graphics (cpu0.registers 0xF) with
    | none => none
    | some (g, vf) =>
        some (.SUCCESS, { cpu0 with graphics := g, registers := updFn cpu0.registers 0xF vf })

/-- `snek8_cpuSKP_VX` (EX9E): skip when key `V[X]` is held. -/
def snek8_cpuSKP_VX (cpu : Snek8CPU) (opcode : Nat) :
    Option (Snek8ExecutionOutput × Snek8CPU) :=
  let x := snek8_opcodeGetNibble opcode 2
  let key := cpu.registers x
  some (.SUCCESS, if snek8_cpuGetKeyVal cpu key then snek8_cpuIncrementPC cpu else cpu)

/-- `snek8_cpuSKNP_VX` (EXA1): skip when key `V[X]` is not held. -/
def snek8_cpuSKNP_VX (cpu : Snek8CPU) (opcode : Nat) :
    Option (Snek8ExecutionOutput × Snek8CPU) :=
  let x := snek8_opcodeGetNibble opcode 2
  let key := cpu.registers x
  some (.SUCCESS, if snek8_cpuGetKeyVal cpu key then cpu else snek8_cpuIncrementPC cpu)

/-- `snek8_cpuLD_VX_DT` (FX07). -/
def snek8_cpuLD_VX_DT (cpu : Snek8CPU) (opcode : Nat) :
    Option (Snek8ExecutionOutput × Snek8CPU) :=
  let x := snek8_opcodeGetNibble opcode 2
  some (.SUCCESS, { cpu with registers := updFn cpu.registers x cpu.dt })

/-- `snek8_cpuLD_VX_K` (FX0A): with no key held, decrement `pc` (busy
wait); otherwise store the lowest-indexed held key in `V[X]`. -/
def snek8_cpuLD_VX_K (cpu : Snek8CPU) (opcode : Nat) :
    Option (Snek8ExecutionOutput × Snek8CPU) :=
  let x := snek8_opcodeGetNibble opcode 2
  if cpu.keys = 0 then some (.SUCCESS, snek8_cpuDecrementPC cpu)
  else
    match (List.range 16).find? (fun k => snek8_cpuGetKeyVal cpu k) with
    | some k => some (.SUCCESS, { cpu with registers := updFn cpu.registers x k })
    | none => some (.SUCCESS, cpu)

/-- `snek8_cpuLD_DT_VX` (FX15). -/
def snek8_cpuLD_DT_VX (cpu : Snek8CPU) (opcode : Nat) :
    Option (Snek8ExecutionOutput × Snek8CPU) :=
  let x := snek8_opcodeGetNibble opcode 2
  some (.SUCCESS, { cpu with dt := cpu.registers x })

/-- `snek8_cpuLD_ST_VX` (FX18). -/
def snek8_cpuLD_ST_VX (cpu : Snek8CPU) (opcode : Nat) :
    Option (Snek8ExecutionOutput × Snek8CPU) :=
  let x := snek8_opcodeGetNibble opcode 2
  some (.SUCCESS, { cpu with st := cpu.registers x })

/-- `snek8_cpuADD_I_VX` (FX1E): `ir := (ir + V[X]) & 0x0FFF`. -/
def snek8_cpuADD_I_VX (cpu : Snek8CPU) (opcode : Nat) :
    Option (Snek8ExecutionOutput × Snek8CPU) :=
  let x := snek8_opcodeGetNibble opcode 2
  some (.SUCCESS, { cpu with ir := (cpu.ir + cpu.registers x) &&& 0xFFF })

/-- `snek8_cpuLD_F_VX` (FX29): `ir := 0x50 + 5 * V[X]` (no masking of
`V[X]` in the source). -/
def snek8_cpuLD_F_VX (cpu : Snek8CPU) (opcode : Nat) :
    Option (Snek8ExecutionOutput × Snek8CPU) :=
  let x := snek8_opcodeGetNibble opcode 2
  some (.SUCCESS, { cpu with ir := 0x50 + 5 * cpu.registers x })

/-- `snek8_cpuLD_B_VX` (FX33): BCD write at `ir`, `ir+1`, `ir+2` after
the `ir + 2 > 0xFFF` bound check. -/
def snek8_cpuLD_B_VX (cpu : Snek8CPU) (opcode : Nat) :
    Option (Snek8ExecutionOutput × Snek8CPU) :=
  if 0xFFF < cpu.ir + 2 then some (.MEM_ADDR_OUT_OF_BOUNDS, cpu)
  else do
    let x := snek8_opcodeGetNibble opcode 2
    let v0 := cpu.registers x
    let m ← snek8_memWrite cpu.memory (cpu.ir + 2) (v0 % 10)
    let v1 := v0 / 10
    let m ← snek8_memWrite m (cpu.ir + 1) (v1 % 10)
    let v2 := v1 / 10
    let m ← snek8_memWrite m cpu.ir (v2 % 10)
    some (.SUCCESS, { cpu with memory := m })

/-- FX55 quirk-on loop: `memory[ir + i] = V[i]; ir++` with `ir`
incremented inside the loop, exactly as in the source — so iteration `i`
writes at the current (already advanced) `ir` plus `i`.  `fuel` counts
the remaining iterations (X+1 at entry); `ir` wraps as a `uint16_t`. -/
def snek8_fx55Inc (regs : Nat → Nat) :
    Nat → Nat → (Nat → Nat) → Nat → Option ((Nat → Nat) × Nat)
  | _i, 0, mem, ir => some (mem, ir)
  | i, Nat.succ fuel, mem, ir =>
      match snek8_memWrite mem (ir + i) (regs i) with
      | none => none
      | some mem1 => snek8_fx55Inc regs (i + 1) fuel mem1 ((ir + 1) % 65536)

/-- FX55 quirk-off loop: `memory[ir + i] = V[i]` with `ir` fixed. -/
def snek8_fx55Plain (regs : Nat → Nat) :
    Nat → Nat → (Nat → Nat) → Nat → Option (Nat → Nat)
  | _i, 0, mem, _ir => some mem
  | i, Nat.succ fuel, mem, ir =>
      match snek8_memWrite mem (ir + i) (regs i) with
      | none => none
      | some mem1 => snek8_fx55Plain regs (i + 1) fuel mem1 ir

/-- `snek8_cpuLD_I_V0_VX` (FX55, part_003 lines 646-663): bound check
`ir + X > 0xFFF`, then one of the two loops depending on the
`fx_autoinc_i` quirk (flag bit 4). -/
def snek8_cpuLD_I_V0_VX (cpu : Snek8CPU) (opcode : Nat) :
    Option (Snek8ExecutionOutput × Snek8CPU) :=
  let x := snek8_opcodeGetNibble opcode 2
  if 0xFFF < cpu.ir + x then some (.MEM_ADDR_OUT_OF_BOUNDS, cpu)
  else if cpu.implmFlags &&& 4 ≠ 0 then
    match snek8_fx55Inc cpu.registers 0 (x + 1) cpu.memory cpu.ir with
    | none => none
    | some (mem, ir) => some (.SUCCESS, { cpu with memory := mem, ir := ir })
  else
    match snek8_fx55Plain cpu.registers 0 (x + 1) cpu.memory cpu.ir with
    | none => none
    | some mem => some (.SUCCESS, { cpu with memory := mem })

/-- FX65 quirk-on loop: `V[i] = memory[ir + i]; ir++` with `ir`
incremented inside the loop, as in the source. -/
def snek8_fx65Inc (mem : Nat → Nat) :
    Nat → Nat → (Nat → Nat) → Nat → Option ((Nat → Nat) × Nat)
  | _i, 0, regs, ir => some (regs, ir)
  | i, Nat.succ fuel, regs, ir =>
      match snek8_memRead mem (ir + i) with
      | none => none
      | some v => snek8_fx65Inc mem (i + 1) fuel (updFn regs i v) ((ir + 1) % 65536)

/-- FX65 quirk-off loop: `V[i] = memory[ir + i]` with `ir` fixed. -/
def snek8_fx65Plain (mem : Nat → Nat) :
    Nat → Nat → (Nat → Nat) → Nat → Option (Nat → Nat)
  | _i, 0, regs, _ir => some regs
  | i, Nat.succ fuel, regs, ir =>
      match snek8_memRead mem (ir + i) with
      | none => none
      | some v => snek8_fx65Plain mem (i + 1) fuel (updFn regs i v) ir

/-- `snek8_cpuLD_VX_V0_I` (FX65, part_003 lines 669-686). -/
def snek8_cpuLD_VX_V0_I (cpu : Snek8CPU) (opcode : Nat) :
    Option (Snek8ExecutionOutput × Snek8CPU) :=
  let x := snek8_opcodeGetNibble opcode 2
  if 0xFFF < cpu.ir + x then some (.MEM_ADDR_OUT_OF_BOUNDS, cpu)
  else if cpu.implmFlags &&& 4 ≠ 0 then
    match snek8_fx65Inc cpu.memory 0 (x + 1) cpu.registers cpu.ir with
    | none => none
    | some (regs, ir) => some (.SUCCESS, { cpu with registers := regs, ir := ir })
  else
    match snek8_fx65Plain cpu.memory 0 (x + 1) cpu.registers cpu.ir with
    | none => none
    | some regs => some (.SUCCESS, { cpu with registers := regs })

/-- The 35 instruction variants of `snek8_opcodeDecode`, plus the NOP
sentinel for unrecognised encodings. -/
inductive Snek8InstructionTag where
  | CLS | RET | NOP
  | JMP_ADDR | CALL
  | SE_VX_BYTE | SNE_VX_BYTE | SE_VX_VY | SNE_VX_VY
  | LD_VX_BYTE | ADD_VX_BYTE
  | LD_VX_VY | OR_VX_VY | AND_VX_VY | XOR_VX_VY
  | ADD_VX_VY | SUB_VX_VY | SHR_VX_VY | SUBN_VX_VY | SHL_VX_VY
  | LD_I_ADDR | JP_V0_ADDR | RND_VX_BYTE | DRW_VX_VY_N
  | SKP_VX | SKNP_VX
  | LD_VX_DT | LD_VX_K | LD_DT_VX | LD_ST_VX
  | ADD_I_VX | LD_F_VX | LD_B_VX | LD_I_V0_VX | LD_VX_V0_I
  deriving DecidableEq, Repr

/-- The decision tree of `snek8_opcodeDecode` (part_003 lines 689-948),
expressed on the precomputed nibbles `msq` (nibble 3), `lsq` (nibble 0)
and `iq1` (nibble 1) exactly as the nested C switches read them.  The
major nibble is always below 16, so the final catch-all is unreachable. -/
def snek8_decodeNibbles (msq lsq iq1 : Nat) : Snek8InstructionTag :=
  match msq with
  | 0x0 =>
      match lsq with
      | 0x0 => .CLS
      | 0xE => .RET
      | _ => .NOP
  | 0x1 => .JMP_ADDR
  | 0x2 => .CALL
  | 0x3 => .SE_VX_BYTE
  | 0x4 => .SNE_VX_BYTE
  | 0x5 => .SE_VX_VY
  | 0x6 => .LD_VX_BYTE
  | 0x7 => .ADD_VX_BYTE
  | 0x8 =>
      match lsq with
      | 0x0 => .LD_VX_VY
      | 0x1 => .OR_VX_VY
      | 0x2 => .AND_VX_VY
      | 0x3 => .XOR_VX_VY
      | 0x4 => .ADD_VX_VY
      | 0x5 => .SUB_VX_VY
      | 0x6 => .SHR_VX_VY
      | 0x7 => .SUBN_VX_VY
      | 0xE => .SHL_VX_VY
      | _ => .NOP
  | 0x9 => .SNE_VX_VY
  | 0xA => .LD_I_ADDR
  | 0xB => .JP_V0_ADDR
  | 0xC => .RND_VX_BYTE
  | 0xD => .DRW_VX_VY_N
  | 0xE =>
      match lsq with
      | 0xE => .SKP_VX
      | 0x1 => .SKNP_VX
      | _ => .NOP
  | 0xF =>
      match lsq with
      | 0x7 => .LD_VX_DT
      | 0xA => .LD_VX_K
      | 0x5 =>
          match iq1 with
          | 0x1 => .LD_DT_VX
          | 0x5 => .LD_I_V0_VX
          | 0x6 => .LD_VX_V0_I
          | _ => .NOP
      | 0x8 => .LD_ST_VX
      | 0xE => .ADD_I_VX
      | 0x9 => .LD_F_VX
      | 0x3 => .LD_B_VX
      | _ => .NOP
  | _ => .NOP

/-- `snek8_opcodeDecode`: extract the nibbles and run the decision tree. -/
def snek8_opcodeDecode (opcode : Nat) : Snek8InstructionTag :=
  snek8_decodeNibbles (snek8_opcodeGetNibble opcode 3)
    (snek8_opcodeGetNibble opcode 0) (snek8_opcodeGetNibble opcode 1)

/-- Dispatch a decoded instruction to its executor, mirroring the
function pointers stored by `snek8_opcodeDecode`.  The `rnd` argument is
consumed only by the RND executor. -/
def snek8_instructionExec (t : Snek8InstructionTag) (cpu : Snek8CPU)
    (opcode rnd : Nat) : Option (Snek8ExecutionOutput × Snek8CPU) :=
  match t with
  | .CLS => snek8_cpuCLS cpu opcode
  | .RET => snek8_cpuRET cpu opcode
  | .NOP => snek8_cpuExecutionError cpu opcode
  | .JMP_ADDR => snek8_cpuJMP_ADDR cpu opcode
  | .CALL => snek8_cpuCALL cpu opcode
  | .SE_VX_BYTE => snek8_cpuSE_VX_BYTE cpu opcode
  | .SNE_VX_BYTE => snek8_cpuSNE_VX_BYTE cpu opcode
  | .SE_VX_VY => snek8_cpuSE_VX_VY cpu opcode
  | .SNE_VX_VY => snek8_cpuSNE_VX_VY cpu opcode
  | .LD_VX_BYTE => snek8_cpuLD_VX_BYTE cpu opcode
  | .ADD_VX_BYTE => snek8_cpuADD_VX_BYTE cpu opcode
  | .LD_VX_VY => snek8_cpuLD_VX_VY cpu opcode
  | .OR_VX_VY => snek8_cpuOR_VX_VY cpu opcode
  | .AND_VX_VY => snek8_cpuAND_VX_VY cpu opcode
  | .XOR_VX_VY => snek8_cpuXOR_VX_VY cpu opcode
  | .ADD_VX_VY => snek8_cpuADD_VX_VY cpu opcode
  | .SUB_VX_VY => snek8_cpuSUB_VX_VY cpu opcode
  | .SHR_VX_VY => snek8_cpuSHR_VX_VY cpu opcode
  | .SUBN_VX_VY => snek8_cpuSUBN_VX_VY cpu opcode
  | .SHL_VX_VY => snek8_cpuSHL_VX_VY cpu opcode
  | .LD_I_ADDR => snek8_cpuLD_I_ADDR cpu opcode
  | .JP_V0_ADDR => snek8_cpuJP_V0_ADDR cpu opcode
  | .RND_VX_BYTE => snek8_cpuRND_VX_BYTE cpu opcode rnd
  | .DRW_VX_VY_N => snek8_cpuDRW_VX_VY_N cpu opcode
  | .SKP_VX => snek8_cpuSKP_VX cpu opcode
  | .SKNP_VX => snek8_cpuSKNP_VX cpu opcode
  | .LD_VX_DT => snek8_cpuLD_VX_DT cpu opcode
  | .LD_VX_K => snek8_cpuLD_VX_K cpu opcode
  | .LD_DT_VX => snek8_cpuLD_DT_VX cpu opcode
  | .LD_ST_VX => snek8_cpuLD_ST_VX cpu opcode
  | .ADD_I_VX => snek8_cpuADD_I_VX cpu opcode
  | .LD_F_VX => snek8_cpuLD_F_VX cpu opcode
  | .LD_B_VX => snek8_cpuLD_B_VX cpu opcode
  | .LD_I_V0_VX => snek8_cpuLD_I_V0_VX cpu opcode
  | .LD_VX_V0_I => snek8_cpuLD_VX_V0_I cpu opcode

/-- `snek8_cpuStep` (part_003 lines 951-959): fetch the opcode at `pc`
with no bounds check, advance `pc` by 2, decode, execute, then tick the
timers; the executor's outcome is returned.  A `none` result models the
fetch (or an unchecked loop access) touching memory outside the
4096-byte array. -/
def snek8_cpuStep (cpu : Snek8CPU) (rnd : Nat) :
    Option (Snek8ExecutionOutput × Snek8CPU) := do
  let opcode ← snek8_cpuGetOpcode cpu
  let cpu1 := snek8_cpuIncrementPC cpu
  let instruction := snek8_opcodeDecode opcode
  let p ← snek8_instructionExec instruction cpu1 opcode rnd
  pure (p.1, snek8_cpuTickTimers p.2)

/-- A CPU aggregate with every field zero, used as the prior object on
which `snek8_cpuInit` is invoked in the concrete scenarios. -/
def snek8_emptyCpu : Snek8CPU :=
  { memory := fun _ => 0
    graphics := fun _ => 0
    stackBuffer := fun _ => 0
    stackSp := 0
    registers := fun _ => 0
    keys := 0
    pc := 0
    ir := 0
    implmFlags := 0
    sp := 0
    st := 0
    dt := 0 }

/-- Drive `snek8_cpuStep` n times with `rnd = 0`, as the embedding glue
`snek8_emulatorEmulationStep` does when called in a loop, and return the
outcome of the last executed step together with the final state. -/
def snek8_stepN : Nat → Snek8CPU → Option (Snek8ExecutionOutput × Snek8CPU)
  | 0, cpu => some (.SUCCESS, cpu)
  | Nat.succ n, cpu =>
      match snek8_cpuStep cpu 0 with
      | none => none
      | some (out, cpu1) =>
          match n with
          | 0 => some (out, cpu1)
          | Nat.succ _ => snek8_stepN n cpu1

/-- Concrete prior aggregate for the C1 witness: V[2] = 200, V[3] = 100. -/
def c1cpu : Snek8CPU :=
  { snek8_emptyCpu with
    registers := fun i => if i = 2 then 200 else if i = 3 then 100 else 0 }

/-- Concrete machine for C2: fresh init (quirks off), then the ROM
`A2 06 60 00 D0 01 80` (LD I,0x206; LD V0,0; DRW V0,V0,1; sprite byte
0x80 at 0x206) loaded at 0x200. -/
def c2cpu : Snek8CPU :=
  (snek8_cpuLoadRom (snek8_cpuInit snek8_emptyCpu 0)
    [0xA2, 0x06, 0x60, 0x00, 0xD0, 0x01, 0x80]).2

/-- Concrete machine for C3: fresh init, then the ROM
`A2 06 60 3F D0 01 FF` (LD I,0x206; LD V0,0x3F; DRW V0,V0,1; sprite
byte 0xFF at 0x206), drawing an 8-bit row starting at column 63 of
row 31. -/
def c3cpu : Snek8CPU :=
  (snek8_cpuLoadRom (snek8_cpuInit snek8_emptyCpu 0)
    [0xA2, 0x06, 0x60, 0x3F, 0xD0, 0x01, 0xFF]).2

/-- Concrete machine for C4 with the BNNN quirk on (flag bit 2) and
V[1] = 0x10, V[3] = 0x20. -/
def c4cpu : Snek8CPU :=
  { snek8_emptyCpu with
    implmFlags := 2
    registers := fun i => if i = 1 then 0x10 else if i = 3 then 0x20 else 0 }

/-- Concrete machine for C4 with the BNNN quirk off and V[0] = 5. -/
def c4cpuOff : Snek8CPU :=
  { snek8_emptyCpu with
    implmFlags := 0
    registers := fun i => if i = 0 then 5 else 0 }

/-- Concrete machine for C5 with the FX55 auto-increment quirk on
(flag bit 4), IR = 0x300, V[0] = 0xAA, V[1] = 0xBB. -/
def c5cpu : Snek8CPU :=
  { snek8_emptyCpu with
    implmFlags := 4
    ir := 0x300
    registers := fun i => if i = 0 then 0xAA else if i = 1 then 0xBB else 0 }

/-- The C5 machine with IR moved to 0xFFF so that IR + X exceeds the RAM
end for X = 1. -/
def c5cpuOob : Snek8CPU := { c5cpu with ir := 0xFFF }

/-- Concrete machine for C6: fresh init, then the scenario-2 ROM
`60 2A 30 2A 12 08` loaded at 0x200. -/
def c6cpu : Snek8CPU :=
  (snek8_cpuLoadRom (snek8_cpuInit snek8_emptyCpu 0)
    [0x60, 0x2A, 0x30, 0x2A, 0x12, 0x08]).2

/-- Concrete machine for the C7 witness: program counter at 0xFFF, the
last byte of RAM. -/
def c7cpu : Snek8CPU := { snek8_emptyCpu with pc := 0xFFF }

/-- Prior aggregate for C8, with every field holding a nonzero junk
value so that `snek8_cpuInit` must overwrite it. -/
def c8prior : Snek8CPU :=
  { snek8_emptyCpu with
    st := 7
    dt := 9
    keys := 3
    pc := 0x500
    ir := 0x123
    sp := 5
    stackSp := 5
    registers := fun _ => 0xAB
    memory := fun _ => 0xCD
    graphics := fun _ => 1
    stackBuffer := fun _ => 9 }

/-- The result of running `snek8_cpuInit` on the junk-filled C8 prior
aggregate with quirk flags 3. -/
def c8cpu : Snek8CPU := snek8_cpuInit c8prior 3

/-- Concrete machine for C9: fresh init, then the ROM `00 01 00 E0`
(an invalid opcode followed by CLS) loaded at 0x200. -/
def c9cpu : Snek8CPU :=
  (snek8_cpuLoadRom (snek8_cpuInit snek8_emptyCpu 0) [0x00, 0x01, 0x00, 0xE0]).2

/-- Concrete machine for the C10 witness: quirk flags 0, IR = 0x300,
V[i] = i + 10. -/
def c10cpu : Snek8CPU :=
  { snek8_emptyCpu with
    ir := 0x300
    registers := fun i => (i + 10) % 256 }

/-- Characterisation of the quirk-off FX55 store loop: when every target
address is inside RAM the loop succeeds and writes `V[t]` to
`memory[ir + t]` for every `t` in `[i, i + fuel)`, leaving all other
cells unchanged. -/
theorem snek8_fx55Plain_spec (regs : Nat → Nat) :
    ∀ (fuel i ir : Nat) (mem : Nat → Nat), ir + i + fuel ≤ 4096 →
      ∃ mem1, snek8_fx55Plain regs i fuel mem ir = some mem1 ∧
        ∀ j, mem1 j = if ir + i ≤ j ∧ j < ir + i + fuel then regs (j - ir) else mem j := by
  intro fuel
  induction fuel with
  | zero =>
      intro i ir mem _
      refine ⟨mem, rfl, ?_⟩
      intro j
      rw [if_neg]
      omega
  | succ n ih =>
      intro i ir mem hb
      have hw : ir + i < 4096 := by omega
      have step1 : snek8_fx55Plain regs i (n + 1) mem ir =
          snek8_fx55Plain regs (i + 1) n (updFn mem (ir + i) (regs i)) ir := by
        simp only [snek8_fx55Plain, snek8_memWrite, if_pos hw]
      obtain ⟨mem1, h1, h2⟩ := ih (i + 1) ir (updFn mem (ir + i) (regs i)) (by omega)
      refine ⟨mem1, by rw [step1]; exact h1, ?_⟩
      intro j
      rw [h2 j]
      by_cases hj : ir + (i + 1) ≤ j ∧ j < ir + (i + 1) + n
      · rw [if_pos hj, if_pos (by omega)]
      · rw [if_neg hj]
        unfold updFn
        by_cases hji : j = ir + i
        · rw [if_pos hji, if_pos (by omega)]
          subst hji
          congr 1
          omega
        · rw [if_neg hji, if_neg (by omega)]

/-- Characterisation of the quirk-off FX65 load loop: when every source
address is inside RAM the loop succeeds and loads `memory[ir + t]` into
`V[t]` for every `t` in `[i, i + fuel)`, leaving all other registers
unchanged. -/
theorem snek8_fx65Plain_spec (mem : Nat → Nat) :
    ∀ (fuel i ir : Nat) (regs : Nat → Nat), ir + i + fuel ≤ 4096 →
      ∃ regs1, snek8_fx65Plain mem i fuel regs ir = some regs1 ∧
        ∀ j, regs1 j = if i ≤ j ∧ j < i + fuel then mem (ir + j) else regs j := by
  intro fuel
  induction fuel with
  | zero =>
      intro i ir regs _
      refine ⟨regs, rfl, ?_⟩
      intro j
      rw [if_neg]
      omega
  | succ n ih =>
      intro i ir regs hb
      have hw : ir + i < 4096 := by omega
      have step1 : snek8_fx65Plain mem i (n + 1) regs ir =
          snek8_fx65Plain mem (i + 1) n (updFn regs i (mem (ir + i))) ir := by
        simp only [snek8_fx65Plain, snek8_memRead, if_pos hw]
      obtain ⟨regs1, h1, h2⟩ := ih (i + 1) ir (updFn regs i (mem (ir + i))) (by omega)
      refine ⟨regs1, by rw [step1]; exact h1, ?_⟩
      intro j
      rw [h2 j]
      by_cases hj : i + 1 ≤ j ∧ j < i + 1 + n
      · rw [if_pos hj, if_pos (by omega)]
      · rw [if_neg hj]
        unfold updFn
        by_cases hji : j = i
        · rw [if_pos hji, if_pos (by omega)]
          subst hji
          rfl
        · rw [if_neg hji, if_neg (by omega)]

/-- C1: executing opcode 8XY4 (`snek8_cpuADD_VX_VY`) with byte values
V[X] = a and V[Y] = b returns SUCCESS, stores (a + b) mod 256 into V[X]
and then writes the carry into VF, so VF = 1 iff a + b ≥ 256; because the
flag is written after the arithmetic result, when X = 0xF the final
V[0xF] equals the carry flag, not (a + b) mod 256. -/
theorem c1_add_vx_vy (cpu : Snek8CPU) (opcode : Nat)
    (ha : cpu.registers (snek8_opcodeGetNibble opcode 2) < 256)
    (_hb : cpu.registers (snek8_opcodeGetNibble opcode 1) < 256) :
    (snek8_cpuADD_VX_VY cpu opcode).map
        (fun p => (p.1, p.2.registers 0xF,
                   p.2.registers (snek8_opcodeGetNibble opcode 2))) =
      some (.SUCCESS,
        (if 256 ≤ cpu.registers (snek8_opcodeGetNibble opcode 2) +
              cpu.registers (snek8_opcodeGetNibble opcode 1) then 1 else 0),
        (if snek8_opcodeGetNibble opcode 2 = 0xF then
          (if 256 ≤ cpu.registers (snek8_opcodeGetNibble opcode 2) +
                cpu.registers (snek8_opcodeGetNibble opcode 1) then 1 else 0)
         else (cpu.registers (snek8_opcodeGetNibble opcode 2) +
               cpu.registers (snek8_opcodeGetNibble opcode 1)) % 256)) := by
  have hcarry : (255 - cpu.registers (snek8_opcodeGetNibble opcode 2) <
      cpu.registers (snek8_opcodeGetNibble opcode 1)) ↔
      (256 ≤ cpu.registers (snek8_opcodeGetNibble opcode 2) +
        cpu.registers (snek8_opcodeGetNibble opcode 1)) := by omega
  unfold snek8_cpuADD_VX_VY
  simp only [Option.map_some, Option.some.injEq, updFn, hcarry]
  by_cases hx : snek8_opcodeGetNibble opcode 2 = 0xF
  · simp [updFn, hx]
  · simp [updFn, hx]

/-- C1 witness: the 8XY4 theorem applied at opcode 0x8234 on a machine
with V[2] = 200 and V[3] = 100 (sum 300: V[2] becomes 44, VF becomes 1). -/
theorem c1_witness :
    (snek8_cpuADD_VX_VY c1cpu 0x8234).map
        (fun p => (p.1, p.2.registers 0xF,
                   p.2.registers (snek8_opcodeGetNibble 0x8234 2))) =
      some (.SUCCESS,
        (if 256 ≤ c1cpu.registers (snek8_opcodeGetNibble 0x8234 2) +
              c1cpu.registers (snek8_opcodeGetNibble 0x8234 1) then 1 else 0),
        (if snek8_opcodeGetNibble 0x8234 2 = 0xF then
          (if 256 ≤ c1cpu.registers (snek8_opcodeGetNibble 0x8234 2) +
                c1cpu.registers (snek8_opcodeGetNibble 0x8234 1) then 1 else 0)
         else (c1cpu.registers (snek8_opcodeGetNibble 0x8234 2) +
               c1cpu.registers (snek8_opcodeGetNibble 0x8234 1)) % 256)) :=
  c1_add_vx_vy c1cpu 0x8234 (by decide) (by decide)

/-- C2: in the reachable state obtained from a fresh init by loading the
ROM `A2 06 60 00 D0 01 80` and stepping three times, the successful DRW
leaves framebuffer cell 0 holding 128 — the XOR writes the sprite bit
mask, not 0 or 1, so the claimed invariant framebuffer[i] ∈ {0, 1} fails. -/
theorem c2_framebuffer_not_boolean :
    (snek8_stepN 3 c2cpu).map (fun p => (p.1, p.2.graphics 0)) =
      some (.SUCCESS, 128) ∧
    (128 : Nat) ≠ 0 ∧ (128 : Nat) ≠ 1 := by decide

/-- C3: drawing the sprite byte 0xFF at V[X] = V[Y] = 0x3F (column 63,
row 31) wraps: bit 1 of the sprite lands on framebuffer cell
1984 = 31·64 + 0, the opposite edge of the same row, instead of being
clipped to 0 — the code masks every target coordinate, it does not clip
past column 63. -/
theorem c3_sprite_wraps_not_clips :
    (snek8_stepN 3 c3cpu).map
        (fun p => (p.1, p.2.graphics 1984, p.2.graphics 2047)) =
      some (.SUCCESS, 64, 128) ∧
    (64 : Nat) ≠ 0 := by decide

/-- C4: with the BNNN quirk on, executing 0xB123 on a machine with
V[1] = 0x10 and V[3] = 0x20 sets PC to 0x143 = NNN + V[3] — the source
passes the stale zero value of `x` as the nibble index, so it reads
nibble 0 (value 3), not nibble 2 (value 1) as the claim states, which
would give 0x133; with the quirk off PC is NNN + V[0] as claimed. -/
theorem c4_bnnn_quirk_uses_low_nibble :
    (snek8_cpuJP_V0_ADDR c4cpu 0xB123).map (fun p => (p.1, p.2.pc)) =
      some (.SUCCESS, 0x143) ∧
    (0x143 : Nat) = 0x123 + c4cpu.registers 3 ∧
    (0x143 : Nat) ≠ 0x123 + c4cpu.registers 1 ∧
    (snek8_cpuJP_V0_ADDR c4cpuOff 0xB123).map (fun p => (p.1, p.2.pc)) =
      some (.SUCCESS, 0x128) := by decide

/-- C5: FX55 with the auto-increment quirk on, IR = 0x300, X = 1,
V[0] = 0xAA, V[1] = 0xBB stores V[0] at 0x300 but V[1] at 0x302,
leaving 0x301 untouched (the loop adds the already-incremented IR to the
loop index, so V[i] lands at IR0 + 2i); the final IR = 0x302 = IR0+X+1
and the IR + X > 0xFFF bound check do match the claim. -/
theorem c5_fx55_autoinc_skips_bytes :
    (snek8_cpuLD_I_V0_VX c5cpu 0xF155).map
        (fun p => (p.1, p.2.memory 0x300, p.2.memory 0x301,
                   p.2.memory 0x302, p.2.ir)) =
      some (.SUCCESS, 0xAA, 0, 0xBB, 0x302) ∧
    (0 : Nat) ≠ 0xBB ∧
    (snek8_cpuLD_I_V0_VX c5cpuOob 0xF155).map (fun p => p.1) =
      some .MEM_ADDR_OUT_OF_BOUNDS := by decide

/-- C6 counterexample: opcode 0x0000 decodes to CLS, not to the NOP
sentinel, and in scenario 2 (ROM `60 2A 30 2A 12 08`) the third step —
which fetches the bytes 00 00 at 0x206 — returns SUCCESS with PC at
0x208, not INVALID_OPCODE as the claim states. -/
theorem c6_counterexample :
    snek8_opcodeDecode 0x0000 = .CLS ∧
    snek8_opcodeDecode 0x0000 ≠ .NOP ∧
    (snek8_stepN 3 c6cpu).map (fun p => (p.1, p.2.pc)) =
      some (.SUCCESS, 0x208) ∧
    Snek8ExecutionOutput.SUCCESS ≠ .INVALID_OPCODE := by decide

/-- C6 amended: in the 0x0NNN family the decoder looks only at the low
nibble — low nibble 0 gives CLS, low nibble 0xE gives RET, and only the
remaining low nibbles give the NOP sentinel whose execution returns
INVALID_OPCODE; hence 0x0000 executes as CLS and the third step of
scenario 2 returns SUCCESS. -/
theorem c6_amended :
    (∀ l, l < 16 → l ≠ 0x0 → l ≠ 0xE → ∀ q, q < 16 →
        snek8_decodeNibbles 0 l q = .NOP) ∧
    (∀ q, snek8_decodeNibbles 0 0x0 q = .CLS) ∧
    (∀ q, snek8_decodeNibbles 0 0xE q = .RET) ∧
    (∀ cpu opcode, snek8_cpuExecutionError cpu opcode =
        some (.INVALID_OPCODE, cpu)) ∧
    (snek8_stepN 3 c6cpu).map (fun p => p.1) = some .SUCCESS := by
  refine ⟨by decide, fun q => rfl, fun q => rfl, fun cpu opcode => rfl, by decide⟩

/-- C6 witness: the amended decode rule applied at the concrete nibbles
(0, 1, 2), i.e. opcode family 0x0NN1, which decodes to the NOP sentinel. -/
theorem c6_amended_witness :
    snek8_decodeNibbles 0 0x1 0x2 = .NOP ∧ (0x1 : Nat) < 16 :=
  ⟨c6_amended.1 0x1 (by decide) (by decide) (by decide) 0x2 (by decide), by decide⟩

/-- C7: `snek8_cpuStep` performs no bounds check before the fetch — for
every state with PC ≥ 0xFFF the step reads past the 4096-byte memory
array (the guarded fetch yields `none`, modelling the out-of-bounds
access) instead of returning MEM_ADDR_OUT_OF_BOUNDS as the claim states. -/
theorem c7_fetch_no_bounds_check (cpu : Snek8CPU) (rnd : Nat)
    (h : 0xFFF ≤ cpu.pc) :
    snek8_cpuStep cpu rnd = none := by
  unfold snek8_cpuStep snek8_cpuGetOpcode snek8_memRead
  by_cases h1 : cpu.pc < 4096
  · have h2 : ¬ cpu.pc + 1 < 4096 := by omega
    simp [h1, h2]
  · simp [h1]

/-- C7 witness: the unchecked-fetch theorem applied at the concrete
machine whose PC is exactly 0xFFF. -/
theorem c7_witness :
    0xFFF ≤ c7cpu.pc ∧ snek8_cpuStep c7cpu 0 = none :=
  ⟨by decide, c7_fetch_no_bounds_check c7cpu 0 (by decide)⟩

/-- C8: `snek8_cpuInit` run on a junk-filled prior aggregate zeroes the
timers' dt, pc, ir, sp, keys, stack, registers, framebuffer, and the
memory outside the fontset, seeds the fontset at 0x050, sets pc = 0x200
and stores the quirk flags — but leaves the sound timer st at its prior
value 7: the source assigns `cpu->sp = 0` twice and never clears st. -/
theorem c8_init_leaves_st :
    c8cpu.st = 7 ∧ (7 : Nat) ≠ 0 ∧ c8cpu.dt = 0 ∧ c8cpu.pc = 0x200 ∧
    c8cpu.ir = 0 ∧ c8cpu.sp = 0 ∧ c8cpu.stackSp = 0 ∧ c8cpu.keys = 0 ∧
    c8cpu.implmFlags = 3 ∧ c8cpu.registers 0 = 0 ∧ c8cpu.registers 15 = 0 ∧
    c8cpu.graphics 0 = 0 ∧ c8cpu.graphics 2047 = 0 ∧
    c8cpu.memory 0x4F = 0 ∧ c8cpu.memory 0x50 = 0xF0 ∧
    c8cpu.memory 0x9F = 0x80 ∧ c8cpu.memory 0xA0 = 0 ∧
    c8cpu.memory 0x200 = 0 ∧ c8cpu.stackBuffer 0 = 0 := by decide

/-- C9 counterexample: after the first step on the ROM `00 01 00 E0`
returns the terminal outcome INVALID_OPCODE, the next `snek8_cpuStep`
call is not a no-op — it returns SUCCESS (a different outcome) and
advances PC from 0x202 to 0x204, so the machine state changes. -/
theorem c9_counterexample :
    ((snek8_cpuStep c9cpu 0).bind (fun p =>
        (snek8_cpuStep p.2 0).map (fun q => (p.1, p.2.pc, q.1, q.2.pc)))) =
      some (.INVALID_OPCODE, 0x202, .SUCCESS, 0x204) ∧
    Snek8ExecutionOutput.SUCCESS ≠ .INVALID_OPCODE ∧
    (0x204 : Nat) ≠ 0x202 := by decide

/-- C9 amended: the core keeps no halt latch — after a step that fails
with INVALID_OPCODE, the following step fetches and executes the
instruction at the advanced PC exactly as from any other state; on the
ROM `00 01 00 E0` it executes the CLS at 0x202, returning SUCCESS with
PC = 0x204 and a cleared framebuffer. -/
theorem c9_amended :
    ((snek8_cpuStep c9cpu 0).bind (fun p => snek8_cpuStep p.2 0)).map
        (fun q => (q.1, q.2.pc, q.2.graphics 0)) =
      some (.SUCCESS, 0x204, 0) := by decide

/-- C10: with the auto-increment quirk off and IR + X ≤ 0xFFF, executing
FX55 (`snek8_cpuLD_I_V0_VX`) and then FX65 (`snek8_cpuLD_VX_V0_I`) with
the same opcode both succeed, leave every register — in particular
V[0..=X] — at its value before the pair, and leave IR unchanged. -/
theorem c10_fx55_fx65_roundtrip (cpu : Snek8CPU) (opcode : Nat)
    (hq : cpu.implmFlags &&& 4 = 0)
    (hb : cpu.ir + snek8_opcodeGetNibble opcode 2 ≤ 0xFFF) :
    ∃ cpu1 cpu2,
      snek8_cpuLD_I_V0_VX cpu opcode = some (.SUCCESS, cpu1) ∧
      snek8_cpuLD_VX_V0_I cpu1 opcode = some (.SUCCESS, cpu2) ∧
      cpu1.ir = cpu.ir ∧ cpu2.ir = cpu.ir ∧
      (∀ i, cpu2.registers i = cpu.registers i) := by
  obtain ⟨mem1, hm1, hm2⟩ :=
    snek8_fx55Plain_spec cpu.registers (snek8_opcodeGetNibble opcode 2 + 1) 0
      cpu.ir cpu.memory (by omega)
  have hnot : ¬ (0xFFF < cpu.ir + snek8_opcodeGetNibble opcode 2) := by omega
  have e1 : snek8_cpuLD_I_V0_VX cpu opcode =
      some (.SUCCESS, { cpu with memory := mem1 }) := by
    unfold snek8_cpuLD_I_V0_VX
    simp [hnot, hq, hm1]
  obtain ⟨regs2, h65, hr⟩ :=
    snek8_fx65Plain_spec mem1 (snek8_opcodeGetNibble opcode 2 + 1) 0
      cpu.ir cpu.registers (by omega)
  have e2 : snek8_cpuLD_VX_V0_I { cpu with memory := mem1 } opcode =
      some (.SUCCESS, { cpu with memory := mem1, registers := regs2 }) := by
    unfold snek8_cpuLD_VX_V0_I
    simp [hnot, hq, h65]
  refine ⟨_, _, e1, e2, rfl, rfl, ?_⟩
  intro i
  show regs2 i = cpu.registers i
  rw [hr i]
  by_cases hi : 0 ≤ i ∧ i < 0 + (snek8_opcodeGetNibble opcode 2 + 1)
  · rw [if_pos hi, hm2 (cpu.ir + i), if_pos (by omega)]
    congr 1
    omega
  · rw [if_neg hi]

/-- C10 witness: the round-trip theorem applied at opcode 0xF355 (X = 3)
on a machine with quirk flags 0, IR = 0x300 and V[i] = i + 10. -/
theorem c10_witness :
    ∃ cpu1 cpu2,
      snek8_cpuLD_I_V0_VX c10cpu 0xF355 = some (.SUCCESS, cpu1) ∧
      snek8_cpuLD_VX_V0_I cpu1 0xF355 = some (.SUCCESS, cpu2) ∧
      cpu1.ir = c10cpu.ir ∧ cpu2.ir = c10cpu.ir ∧
      (∀ i, cpu2.registers i = c10cpu.registers i) :=
  c10_fx55_fx65_roundtrip c10cpu 0xF355 (by decide) (by decide)
